import Mathlib

/-!
Shallow embedding of the tool-calling orchestration engine of the
universal-data-connector backend (`backend/app`): the input normalizers
(`utils/normalizers.py`), the tool implementations and registry/dispatcher
(`functions.py`), the model-reply parser (`llm_client.py`) and the chat
controller (`main.py`).  Python strings are modelled as `List Char`
(wrapped in `String` at the JSON level), machine numbers as `ℚ`/`Int`/`Nat`,
raised exceptions as `Except PyErr`, and the current local date as an
explicit `PyDate` parameter.
-/

/-- Python exception classes raised by the embedded code. -/
inductive PyErr where
  | valueError (msg : String)
  | typeError
  | attributeError
  | keyError
  | indexError
  | zeroDivisionError
deriving Repr, DecidableEq

/-- Result of running a piece of Python code: a value or a raised exception. -/
abbrev PyResult (α : Type) := Except PyErr α

/-- Python `str.strip()` (ASCII whitespace). -/
def pyStrip (l : List Char) : List Char :=
  ((l.dropWhile Char.isWhitespace).reverse.dropWhile Char.isWhitespace).reverse

/-- Python `str.lower()` (ASCII range, the only one exercised here). -/
def pyLower (l : List Char) : List Char := l.map Char.toLower

/-- Python `str.upper()` (ASCII range). -/
def pyUpper (l : List Char) : List Char := l.map Char.toUpper

/-- Helper for `pyTitle`: the boolean records whether the previous
character was a letter (i.e. cased). -/
def pyTitleAux : List Char → Bool → List Char
  | [], _ => []
  | c :: rest, prevAlpha =>
    if c.isAlpha then
      (if prevAlpha then c.toLower else c.toUpper) :: pyTitleAux rest true
    else c :: pyTitleAux rest false

/-- Python `str.title()`: first letter of every maximal letter run is
upper-cased, the rest lower-cased. -/
def pyTitle (l : List Char) : List Char := pyTitleAux l false

/-- Regex word character (`\w`): alphanumeric or underscore. -/
def isWordChar (c : Char) : Bool := c.isAlphanum || c = '_'

/-- `\b` holds before the match iff the preceding character (if any) is
not a word character. -/
def noWordBefore : Option Char → Bool
  | none => true
  | some p => !(isWordChar p)

/-- `\b` holds after the match iff the following character (if any) is
not a word character. -/
def noWordAt : List Char → Bool
  | [] => true
  | r :: _ => !(isWordChar r)

/-- `re.sub(r"\bcity\b", "", s, flags=re.IGNORECASE)`: left-to-right scan
over the original string deleting non-overlapping whole-word matches of
"city"; the first argument tracks the character preceding the scan point. -/
def subCityAux : Option Char → List Char → List Char
  | prev, a :: b :: c :: d :: rest =>
    if [a, b, c, d].map Char.toLower = ['c', 'i', 't', 'y']
        ∧ noWordBefore prev = true ∧ noWordAt rest = true then
      subCityAux (some d) rest
    else
      a :: subCityAux (some a) (b :: c :: d :: rest)
  | _, l => l

/-- Embeds `normalizers.normalize_city` (strings as `List Char`):
reject empty input, strip, delete the standalone word "city"
(case-insensitive), strip again, title-case. -/
def normalize_city (city : List Char) : PyResult (List Char) :=
  if city = [] then .error (.valueError "City cannot be empty.")
  else .ok (pyTitle (pyStrip (subCityAux none (pyStrip city))))

/-- Embeds `normalizers.normalize_currency`: reject empty input,
strip and upper-case. -/
def normalize_currency (code : List Char) : PyResult (List Char) :=
  if code = [] then .error (.valueError "Currency cannot be empty.")
  else .ok (pyUpper (pyStrip code))

/-- A Python `datetime.date`. -/
structure PyDate where
  year : Int
  month : Nat
  day : Nat
deriving Repr, DecidableEq

/-- Gregorian leap year test, as used by `datetime`. -/
def isLeap (y : Int) : Bool := (y % 4 == 0) && (y % 100 != 0 || y % 400 == 0)

/-- Number of days in a month (0 for an invalid month index). -/
def daysInMonth (y : Int) (m : Nat) : Nat :=
  match m with
  | 1 | 3 | 5 | 7 | 8 | 10 | 12 => 31
  | 4 | 6 | 9 | 11 => 30
  | 2 => if isLeap y then 29 else 28
  | _ => 0

/-- `datetime(year, month, day)`: validates ranges exactly as the
constructor does, raising `ValueError` otherwise. -/
def mkDate (y : Int) (m d : Nat) : PyResult PyDate :=
  if ¬ (1 ≤ y ∧ y ≤ 9999) then .error (.valueError "year is out of range")
  else if ¬ (1 ≤ m ∧ m ≤ 12) then .error (.valueError "month must be in 1..12")
  else if ¬ (1 ≤ d ∧ d ≤ daysInMonth y m) then
    .error (.valueError "day is out of range for month")
  else .ok ⟨y, m, d⟩

/-- Decimal digits of `n`, left-padded with zeros to `width`. -/
def padDigits (width : Nat) (n : Nat) : List Char :=
  let ds := Nat.toDigits 10 n
  List.replicate (width - ds.length) '0' ++ ds

/-- `date.isoformat()`: `YYYY-MM-DD`. -/
def isoformat (d : PyDate) : List Char :=
  padDigits 4 d.year.toNat ++ '-' :: padDigits 2 d.month ++ '-' :: padDigits 2 d.day

/-- The day after `d` (used for the literal "tomorrow"). -/
def nextDay (d : PyDate) : PyDate :=
  if d.day < daysInMonth d.year d.month then ⟨d.year, d.month, d.day + 1⟩
  else if d.month < 12 then ⟨d.year, d.month + 1, 1⟩
  else ⟨d.year + 1, 1, 1⟩

/-- Numeric value of an ASCII digit character. -/
def digitVal (c : Char) : Nat := c.toNat - 48

/-- All characters are ASCII digits. -/
def allDigits (l : List Char) : Bool := l.all Char.isDigit

/-- Value of a big-endian digit string. -/
def digitsToNat (l : List Char) : Nat := l.foldl (fun acc c => acc * 10 + digitVal c) 0

/-- Model of Python `datetime.fromisoformat` restricted to the plain
`YYYY-MM-DD` calendar-date form (the only form the repository's inputs
exercise); other ISO-8601 forms accepted by newer Pythons are not
modelled and are treated as parse failures, as is an invalid calendar
date (where `fromisoformat` raises and the caller's `except` catches). -/
def parseIsoDate (l : List Char) : Option PyDate :=
  match l with
  | [y1, y2, y3, y4, s1, m1, m2, s2, d1, d2] =>
    if s1 = '-' ∧ s2 = '-' ∧ allDigits [y1, y2, y3, y4, m1, m2, d1, d2] = true then
      match mkDate (digitsToNat [y1, y2, y3, y4]) (digitsToNat [m1, m2]) (digitsToNat [d1, d2]) with
      | .ok dt => some dt
      | .error _ => none
    else none
  | _ => none

/-- A dash-or-slash separator of the `DD-MM-YYYY` / `DD/MM/YYYY` regex. -/
def isDateSep (c : Char) : Bool := c = '-' || c = '/'

/-- Greedy `\d{1,2}`: two digits if available, else one. (Greediness is
exact here: whenever two digits are available, the one-digit parse leaves
a digit where the regex requires a separator, so it always fails.) -/
def parse12 : List Char → Option (Nat × List Char)
  | a :: b :: rest =>
    if a.isDigit then
      if b.isDigit then some (digitVal a * 10 + digitVal b, rest)
      else some (digitVal a, b :: rest)
    else none
  | [a] => if a.isDigit then some (digitVal a, []) else none
  | [] => none

/-- The `re.match` of `normalize_date`: one or two digits, a dash-or-slash
separator, one or two digits, another (independent) separator, and exactly
four digits at the end; returns (day, month, year). -/
def matchDMY (l : List Char) : Option (Nat × Nat × Nat) := do
  let (dd, r1) ← parse12 l
  match r1 with
  | s1 :: r2 =>
    if isDateSep s1 then do
      let (mm, r3) ← parse12 r2
      match r3 with
      | s2 :: y1 :: y2 :: y3 :: y4 :: [] =>
        if isDateSep s2 ∧ allDigits [y1, y2, y3, y4] = true then
          some (dd, mm, digitsToNat [y1, y2, y3, y4])
        else none
      | _ => none
    else none
  | [] => none

/-- Abbreviated month names recognized by `strptime`'s `%b`
(matching is case-insensitive). -/
def monthAbbrevs : List (List Char × Nat) :=
  [(['j','a','n'], 1), (['f','e','b'], 2), (['m','a','r'], 3), (['a','p','r'], 4),
   (['m','a','y'], 5), (['j','u','n'], 6), (['j','u','l'], 7), (['a','u','g'], 8),
   (['s','e','p'], 9), (['o','c','t'], 10), (['n','o','v'], 11), (['d','e','c'], 12)]

/-- Full month names recognized by `strptime`'s `%B`. -/
def monthFulls : List (List Char × Nat) :=
  [(['j','a','n','u','a','r','y'], 1), (['f','e','b','r','u','a','r','y'], 2),
   (['m','a','r','c','h'], 3), (['a','p','r','i','l'], 4), (['m','a','y'], 5),
   (['j','u','n','e'], 6), (['j','u','l','y'], 7), (['a','u','g','u','s','t'], 8),
   (['s','e','p','t','e','m','b','e','r'], 9), (['o','c','t','o','b','e','r'], 10),
   (['n','o','v','e','m','b','e','r'], 11), (['d','e','c','e','m','b','e','r'], 12)]

/-- Case-insensitive prefix removal: `some rest` iff the input starts
with the (lower-case) pattern, modulo case. -/
def stripPrefixCI : List Char → List Char → Option (List Char)
  | [], rest => some rest
  | _ :: _, [] => none
  | p :: ps, c :: cs => if c.toLower = p then stripPrefixCI ps cs else none

/-- `strptime`'s `%d` pattern `3[01]|[12]\d|0[1-9]|[1-9]`, greedy with the
same effective backtracking as the regex. -/
def parseDay : List Char → Option (Nat × List Char)
  | a :: b :: rest =>
    if a.isDigit ∧ b.isDigit ∧
        ((a = '3' ∧ (b = '0' ∨ b = '1')) ∨ a = '1' ∨ a = '2' ∨ (a = '0' ∧ b ≠ '0')) then
      some (digitVal a * 10 + digitVal b, rest)
    else if a.isDigit ∧ a ≠ '0' then some (digitVal a, b :: rest)
    else none
  | [a] => if a.isDigit ∧ a ≠ '0' then some (digitVal a, []) else none
  | [] => none

/-- `\s+`: at least one whitespace character, consumed greedily. -/
def ws1 : List Char → Option (List Char)
  | c :: rest => if c.isWhitespace then some (rest.dropWhile Char.isWhitespace) else none
  | [] => none

/-- Try each month name as a case-insensitive prefix and continue with
the first alternative whose continuation succeeds (regex backtracking
over the `%b`/`%B` alternation). -/
def parseMonthName (months : List (List Char × Nat)) (l : List Char)
    (k : Nat → List Char → Option PyDate) : Option PyDate :=
  months.findSome? (fun p =>
    match stripPrefixCI p.1 l with
    | some rest => k p.2 rest
    | none => none)

/-- Exactly four digits ending the input (`%Y` anchored at the end),
feeding `datetime(...)`; a constructor failure is a format failure
(caught by the caller's `except`). -/
def parseYearEnd (mm dd : Nat) (l : List Char) : Option PyDate :=
  match l with
  | [y1, y2, y3, y4] =>
    if allDigits [y1, y2, y3, y4] = true then
      match mkDate (digitsToNat [y1, y2, y3, y4]) mm dd with
      | .ok dt => some dt
      | .error _ => none
    else none
  | _ => none

/-- `strptime` with format `%d %b %Y` / `%d %B %Y` (month list supplied). -/
def parseFmtDayMonthYear (months : List (List Char × Nat)) (l : List Char) : Option PyDate := do
  let (dd, r1) ← parseDay l
  let r2 ← ws1 r1
  parseMonthName months r2 (fun mm r3 => do
    let r4 ← ws1 r3
    parseYearEnd mm dd r4)

/-- `strptime` with format `%b %d %Y` / `%B %d %Y` (month list supplied). -/
def parseFmtMonthDayYear (months : List (List Char × Nat)) (l : List Char) : Option PyDate :=
  parseMonthName months l (fun mm r1 => do
    let r2 ← ws1 r1
    let (dd, r3) ← parseDay r2
    let r4 ← ws1 r3
    parseYearEnd mm dd r4)

/-- The four textual formats tried in source order:
`%d %b %Y`, `%d %B %Y`, `%b %d %Y`, `%B %d %Y`. -/
def tryTextFormats (l : List Char) : Option PyDate :=
  parseFmtDayMonthYear monthAbbrevs l <|> parseFmtDayMonthYear monthFulls l <|>
  parseFmtMonthDayYear monthAbbrevs l <|> parseFmtMonthDayYear monthFulls l

/-- Embeds `normalizers.normalize_date`; `today` models
`datetime.now().date()` at call time. -/
def normalize_date (today : PyDate) (date_str : List Char) : PyResult (List Char) :=
  if date_str = [] then .error (.valueError "Date cannot be empty.")
  else
    let s := pyLower (pyStrip date_str)
    if s = ['t','o','d','a','y'] then .ok (isoformat today)
    else if s = ['t','o','m','o','r','r','o','w'] then .ok (isoformat (nextDay today))
    else match parseIsoDate date_str with
    | some dt => .ok (isoformat dt)
    | none =>
      match matchDMY s with
      | some (dd, mm, yyyy) =>
        match mkDate (yyyy : Int) mm dd with
        | .ok dt => .ok (isoformat dt)
        | .error e => .error e
      | none =>
        match tryTextFormats (pyStrip date_str) with
        | some dt => .ok (isoformat dt)
        | none => .error (.valueError "Invalid date format. Use YYYY-MM-DD or today/tomorrow.")

/-- JSON-shaped Python values; `Json.null` doubles as Python `None`
(which is exactly what `r.json()` decodes JSON `null` to). -/
inductive Json where
  | null
  | bool (b : Bool)
  | num (q : ℚ)
  | str (s : String)
  | arr (elems : List Json)
  | obj (fields : List (String × Json))

/-- Python truthiness of a JSON-shaped value. -/
def truthy : Json → Bool
  | .null => false
  | .bool b => b
  | .num q => q != 0
  | .str s => s.length != 0
  | .arr es => es.length != 0
  | .obj fs => fs.length != 0

/-- `d.get(k)` on a dict: the stored value, or `None` when missing. -/
def dictGet (fields : List (String × Json)) (k : String) : Json :=
  (fields.lookup k).getD .null

/-- `x.get(k)` where `x` may not be a dict: non-dicts (including `None`)
have no `.get` and raise AttributeError. -/
def pyDictGet (x : Json) (k : String) : PyResult Json :=
  match x with
  | .obj fields => .ok (dictGet fields k)
  | _ => .error .attributeError

/-- `x.get(k, dflt)`: the default applies only when the key is missing. -/
def pyDictGetD (x : Json) (k : String) (dflt : Json) : PyResult Json :=
  match x with
  | .obj fields => .ok ((fields.lookup k).getD dflt)
  | _ => .error .attributeError

/-- `d[k]` subscription: missing key raises KeyError, non-dict receivers
raise TypeError on a string index. -/
def pySubscript (d : Json) (k : String) : PyResult Json :=
  match d with
  | .obj fields =>
    match fields.lookup k with
    | some v => .ok v
    | none => .error .keyError
  | _ => .error .typeError

/-- `x or y`. -/
def pyOrJ (x y : Json) : Json := if truthy x then x else y

/-- `_safe_get(d, *keys)` from functions.py with its default of `None`:
stop with `None` as soon as the walk hits `None`, raise AttributeError
on a non-dict, otherwise keep `.get`-ing. -/
def safe_get (d : Json) : List String → PyResult Json
  | [] => .ok d
  | k :: ks =>
    match d with
    | .null => .ok .null
    | .obj fields => safe_get (dictGet fields k) ks
    | _ => .error .attributeError

/-- The value `extract_function_call` returns for a recognized tool call:
`{"name": tool, "arguments": parsed.get("arguments", {})}`. -/
structure FunctionCall where
  name : Json
  arguments : Json

/-- Embeds llm_client.extract_function_call.  The reply's text content is
represented by the outcome of `json.loads` on it: `none` when the text is
not valid JSON (json.loads raised, caught by the try/except), `some j`
when it parsed to the value `j`. -/
def extract_function_call (parsed : Option Json) : PyResult (Option FunctionCall) :=
  match parsed with
  | none => .ok none
  | some (.obj fields) =>
    let tool := dictGet fields "tool"
    if truthy tool then
      .ok (some ⟨tool, (fields.lookup "arguments").getD (.obj [])⟩)
    else .ok none
  | some _ => .error .attributeError

/-- `normalize_city` as called on a JSON argument value: a falsy value
fails the `if not city` check with ValueError, a truthy non-string fails
at `.strip()` with AttributeError. -/
def normalize_city_j (v : Json) : PyResult String :=
  match v with
  | .str s => (normalize_city s.toList).map (fun l => ⟨l⟩)
  | v => if truthy v then .error .attributeError else .error (.valueError "City cannot be empty.")

/-- `normalize_date` as called on a JSON argument value. -/
def normalize_date_j (today : PyDate) (v : Json) : PyResult String :=
  match v with
  | .str s => (normalize_date today s.toList).map (fun l => ⟨l⟩)
  | v => if truthy v then .error .attributeError else .error (.valueError "Date cannot be empty.")

/-- `normalize_currency` as called on a JSON argument value. -/
def normalize_currency_j (v : Json) : PyResult String :=
  match v with
  | .str s => (normalize_currency s.toList).map (fun l => ⟨l⟩)
  | v => if truthy v then .error .attributeError else .error (.valueError "Currency cannot be empty.")

/-- One row of the function_calls audit table written by log_call; the
timestamp column is not modelled (no claim mentions it). -/
structure AuditRecord where
  function_name : String
  arguments_json : Json
  result_json : Json

/-- An upstream HTTP response as seen through `r.status_code` / `r.json()`. -/
structure HttpResp where
  status : Nat
  body : Json

/-- Environment of convert_currency: whether `requests.get` or `r.json()`
raised inside the try (the except branch), and otherwise the response. -/
structure ConvertEnv where
  reqException : Bool
  resp : HttpResp

/-- `True`/`False` count as 1/0 in Python arithmetic. -/
def pyNumOf : Json → Option ℚ
  | .num q => some q
  | .bool b => some (if b then 1 else 0)
  | _ => none

/-- Python `/`: TypeError outside numbers, ZeroDivisionError on zero. -/
def pyDiv (a b : Json) : PyResult Json :=
  match pyNumOf a, pyNumOf b with
  | some x, some y => if y = 0 then .error .zeroDivisionError else .ok (.num (x / y))
  | _, _ => .error .typeError

/-- Python `str.upper()` on a `String`. -/
def upperStr (s : String) : String := ⟨pyUpper s.toList⟩

/-- The straight-line body of functions.convert_currency: normalize both
codes, return the error dict on a failed request or non-200 status,
otherwise read `data["rates"][target.upper()]` and build the result; the
rate is `converted / amount` guarded by the truthiness of `amount`.
The fixed text stands in for the interpolated exception message. -/
def convert_currency_run (env : ConvertEnv) (amount base target : Json) : PyResult Json := do
  let b ← normalize_currency_j base
  let t ← normalize_currency_j target
  if env.reqException then
    return Json.obj [("error", .str "Currency request failed: (exception)")]
  else if env.resp.status ≠ 200 then
    return Json.obj [("error", env.resp.body)]
  else do
    let conv ← pySubscript (← pySubscript env.resp.body "rates") (upperStr t)
    let rate ← if truthy amount then pyDiv conv amount else pure Json.null
    return Json.obj [("amount", amount), ("base", .str (upperStr b)),
      ("target", .str (upperStr t)), ("converted", conv), ("rate", rate)]

/-- Embeds functions.convert_currency.  The second component collects the
log_call appends of the call: the source function contains none. -/
def convert_currency (env : ConvertEnv) (amount base target : Json) :
    PyResult Json × List AuditRecord :=
  (convert_currency_run env amount base target, [])

/-- Environment of get_news_for_city. -/
structure NewsEnv where
  apiKey : Bool
  resp : HttpResp

/-- Python `int()` truncates a float toward zero. -/
def ratTrunc (q : ℚ) : Int := if 0 ≤ q then ⌊q⌋ else ⌈q⌉

/-- Python `int(x)` for the value kinds reachable here. -/
def pyInt : Json → PyResult Int
  | .num q => .ok (ratTrunc q)
  | .bool b => .ok (if b then 1 else 0)
  | .str s =>
    match s.toInt? with
    | some n => .ok n
    | none => .error (.valueError "invalid literal for int()")
  | _ => .error .typeError

/-- `x[:n]` for `n ≥ 1`: lists slice to their prefix, strings slice to a
list of one-character strings when iterated, others raise TypeError. -/
def pySlice (v : Json) (n : Nat) : PyResult (List Json) :=
  match v with
  | .arr es => .ok (es.take n)
  | .str s => .ok ((s.toList.take n).map (fun c => .str ⟨[c]⟩))
  | _ => .error .typeError

/-- Effectful map preserving order, as a Python `for`-append loop. -/
def mapMPy {α β : Type} (f : α → PyResult β) : List α → PyResult (List β)
  | [] => .ok []
  | x :: xs =>
    match f x with
    | .error e => .error e
    | .ok y =>
      match mapMPy f xs with
      | .error e => .error e
      | .ok ys => .ok (y :: ys)

/-- One article dict built inside the loop of get_news_for_city. -/
def buildArticle (a : Json) : PyResult Json := do
  let title ← pyDictGet a "title"
  let src ← pyDictGet a "source"
  let srcName ← pyDictGet (pyOrJ src (.obj [])) "name"
  let publishedAt ← pyDictGet a "publishedAt"
  let url ← pyDictGet a "url"
  let descr ← pyDictGet a "description"
  return Json.obj [("title", title), ("source", srcName),
    ("publishedAt", publishedAt), ("url", url), ("description", descr)]

/-- Embeds functions.get_news_for_city (init_db is a no-op here).  The
second component collects the log_call appends, one per return branch,
each recording the normalized city, the received page_size and the
result about to be returned. -/
def get_news_for_city (env : NewsEnv) (city page_size : Json) :
    PyResult Json × List AuditRecord :=
  match normalize_city_j city with
  | .error e => (.error e, [])
  | .ok c =>
    if env.apiKey = false then
      let r : Json := .obj [("error", .str "Missing NEWSAPI_KEY in environment")]
      (.ok r, [⟨"get_news_for_city", .obj [("city", .str c), ("page_size", page_size)], r⟩])
    else
      match pyInt page_size with
      | .error e => (.error e, [])
      | .ok n =>
        let ps : Int := max 1 (min n 20)
        if env.resp.status ≠ 200 then
          let r : Json := .obj [("error", env.resp.body)]
          (.ok r, [⟨"get_news_for_city", .obj [("city", .str c), ("page_size", page_size)], r⟩])
        else
          match (do
            let raw ← pyDictGetD env.resp.body "articles" (.arr [])
            let sliced ← pySlice raw ps.toNat
            let articles ← mapMPy buildArticle sliced
            pure (Json.obj [("city", .str c), ("count", .num articles.length),
              ("articles", .arr articles)]) : PyResult Json) with
          | .error e => (.error e, [])
          | .ok r =>
            (.ok r, [⟨"get_news_for_city", .obj [("city", .str c), ("page_size", page_size)], r⟩])

/-- The dict returned by `_geocode_city` when it succeeds (name and
country come from `.get` and may be None). -/
structure Geo where
  lat : ℚ
  lon : ℚ
  name : Json
  country : Json

/-- Environment of get_weather_for_date: API key presence, the value
returned by `_geocode_city`, the two possible upstream responses, and
`datetime.now().date()`. -/
structure WeatherEnv where
  apiKey : Bool
  geo : Option Geo
  current : HttpResp
  forecast : HttpResp
  today : PyDate

/-- `for x in v`: lists yield elements, strings one-character strings,
dicts their keys; other values are not iterable. -/
def pyIter (v : Json) : PyResult (List Json) :=
  match v with
  | .arr es => .ok es
  | .str s => .ok (s.toList.map (fun c => .str ⟨[c]⟩))
  | .obj fields => .ok (fields.map (fun p => .str p.1))
  | _ => .error .typeError

/-- `x[0]`: first element of a list or string (IndexError when empty),
KeyError on a dict, TypeError otherwise. -/
def pyIndex0 (v : Json) : PyResult Json :=
  match v with
  | .arr [] => .error .indexError
  | .arr (x :: _) => .ok x
  | .str s =>
    match s.toList with
    | [] => .error .indexError
    | c :: _ => .ok (.str ⟨[c]⟩)
  | .obj _ => .error .keyError
  | _ => .error .typeError

/-- `x.lower()` on a JSON value. -/
def pyLowerJ (v : Json) : PyResult String :=
  match v with
  | .str s => .ok ⟨pyLower s.toList⟩
  | _ => .error .attributeError

/-- Python `<` for the value kinds compared here (numbers, with booleans
as 0/1, and strings, both ordered as in Python). -/
def pyLt (a b : Json) : PyResult Bool :=
  match a, b with
  | .str x, .str y => .ok (decide (x < y))
  | _, _ =>
    match pyNumOf a, pyNumOf b with
    | some x, some y => .ok (decide (x < y))
    | _, _ => .error .typeError

/-- `min(...)` folding: keep the accumulator on ties (Python keeps the
first minimal element). -/
def pyMinFold (acc : Json) : List Json → PyResult Json
  | [] => .ok acc
  | x :: xs => do
    let lt ← pyLt x acc
    pyMinFold (if lt then x else acc) xs

/-- Python `min` over a list. -/
def pyMin : List Json → PyResult Json
  | [] => .error (.valueError "min() arg is an empty iterable")
  | x :: xs => pyMinFold x xs

/-- `max(...)` folding: replace the accumulator only on strict `>`. -/
def pyMaxFold (acc : Json) : List Json → PyResult Json
  | [] => .ok acc
  | x :: xs => do
    let gt ← pyLt acc x
    pyMaxFold (if gt then x else acc) xs

/-- Python `max` over a list. -/
def pyMax : List Json → PyResult Json
  | [] => .error (.valueError "max() arg is an empty iterable")
  | x :: xs => pyMaxFold x xs

/-- `sum(...)` with its integer start value 0. -/
def pySumFold (acc : ℚ) : List Json → PyResult ℚ
  | [] => .ok acc
  | x :: xs =>
    match pyNumOf x with
    | some q => pySumFold (acc + q) xs
    | none => .error .typeError

/-- `grouped.setdefault(key, []).append(e)`: dict insertion order is
first-appearance order of the keys. -/
def groupAppend (key : String) (e : Json) :
    List (String × List Json) → List (String × List Json)
  | [] => [(key, [e])]
  | (k, es) :: rest =>
    if k = key then (k, es ++ [e]) :: rest else (k, es) :: groupAppend key e rest

/-- Days-since-epoch to calendar date (the `.date()` of
`datetime.fromtimestamp(ts, tz=timezone.utc)`), via the standard
civil-from-days conversion. -/
def civilFromDays (z0 : Int) : PyDate :=
  let z := z0 + 719468
  let era : Int := Int.fdiv z 146097
  let doe : Nat := (z - era * 146097).toNat
  let yoe : Nat := (doe - doe / 1460 + doe / 36524 - doe / 146096) / 365
  let doy : Nat := doe - (365 * yoe + yoe / 4 - yoe / 100)
  let mp : Nat := (5 * doy + 2) / 153
  let d : Nat := doy - (153 * mp + 2) / 5 + 1
  let m : Nat := if mp < 10 then mp + 3 else mp - 9
  ⟨(yoe : Int) + era * 400 + (if m ≤ 2 then 1 else 0), m, d⟩

/-- The grouping loop of the forecast branch: skip entries without a
`dt`, bucket the rest under the ISO date of their UTC timestamp. -/
def buildGroups : List Json → List (String × List Json) →
    PyResult (List (String × List Json))
  | [], acc => .ok acc
  | e :: es, acc => do
    let ts ← pyDictGet e "dt"
    match ts with
    | .null => buildGroups es acc
    | v =>
      match pyNumOf v with
      | some q => buildGroups es (groupAppend ⟨isoformat (civilFromDays ⌊q / 86400⌋)⟩ e acc)
      | none => .error .typeError

/-- `data.get("list", [])` followed by the grouping loop. -/
def forecastGroups (body : Json) : PyResult (List (String × List Json)) := do
  let entries ← pyDictGetD body "list" (.arr [])
  let lst ← pyIter entries
  buildGroups lst []

/-- `(_safe_get((e.get("weather") or [{}])[0], "description") or "").lower()`. -/
def descOf (e : Json) : PyResult String := do
  let w ← pyDictGet e "weather"
  let first ← pyIndex0 (pyOrJ w (.arr [.obj []]))
  let d ← safe_get first ["description"]
  pyLowerJ (pyOrJ d (.str ""))

/-- `Counter` built in first-appearance order. -/
def insertCount (counts : List (String × Nat)) (d : String) : List (String × Nat) :=
  match counts with
  | [] => [(d, 1)]
  | (k, n) :: rest => if k = d then (k, n + 1) :: rest else (k, n) :: insertCount rest d

/-- Occurrence counts of a list of strings, keys in first-appearance order. -/
def countOcc (xs : List String) : List (String × Nat) := xs.foldl insertCount []

/-- `Counter(...).most_common(1)`: a highest-count entry, the earliest
inserted among ties (CPython's sort is stable on insertion order). -/
def mostCommon1 (counts : List (String × Nat)) : Option (String × Nat) :=
  counts.foldl (fun best p =>
    match best with
    | none => some p
    | some q => if p.2 > q.2 then some p else some q) none

/-- The result dict of the current-weather branch. -/
def buildCurrentResult (d : String) (geo : Geo) (body : Json) : PyResult Json := do
  let temp ← safe_get body ["main", "temp"]
  let feels ← safe_get body ["main", "feels_like"]
  let hum ← safe_get body ["main", "humidity"]
  let w ← pyDictGet body "weather"
  let w0 ← pyIndex0 (pyOrJ w (.arr [.obj []]))
  let cond ← safe_get w0 ["description"]
  let wind ← safe_get body ["wind", "speed"]
  return Json.obj [("date", .str d), ("city", geo.name), ("country", geo.country),
    ("type", .str "current"), ("temperature_c", temp), ("feels_like_c", feels),
    ("humidity", hum), ("condition", cond), ("wind_mps", wind)]

/-- The summary dict of the forecast branch: filtered per-entry values,
min/max/averages guarded by list truthiness, most common description. -/
def buildForecastResult (d : String) (geo : Geo) (day_entries : List Json) :
    PyResult Json := do
  let tempsAll ← mapMPy (fun e => safe_get e ["main", "temp"]) day_entries
  let temps := tempsAll.filter (fun v => match v with | .null => false | _ => true)
  let feelsAll ← mapMPy (fun e => safe_get e ["main", "feels_like"]) day_entries
  let feels := feelsAll.filter (fun v => match v with | .null => false | _ => true)
  let humAll ← mapMPy (fun e => safe_get e ["main", "humidity"]) day_entries
  let humid := humAll.filter (fun v => match v with | .null => false | _ => true)
  let descs ← mapMPy descOf day_entries
  let counts := countOcc (descs.filter (fun s => s.length ≠ 0))
  let cond : Json := match mostCommon1 counts with
    | some p => .str p.1
    | none => .null
  let temp_min ← if temps.length ≠ 0 then pyMin temps else pure Json.null
  let temp_max ← if temps.length ≠ 0 then pyMax temps else pure Json.null
  let temp_avg ←
    if temps.length ≠ 0 then do
      let s ← pySumFold 0 temps
      pure (Json.num (s / temps.length))
    else pure Json.null
  let feels_avg ←
    if feels.length ≠ 0 then do
      let s ← pySumFold 0 feels
      pure (Json.num (s / feels.length))
    else pure Json.null
  let hum_avg ←
    if humid.length ≠ 0 then do
      let s ← pySumFold 0 humid
      pure (Json.num (s / humid.length))
    else pure Json.null
  return Json.obj [("date", .str d), ("city", geo.name), ("country", geo.country),
    ("type", .str "forecast"), ("temp_min_c", temp_min), ("temp_max_c", temp_max),
    ("temp_avg_c", temp_avg), ("feels_like_avg_c", feels_avg),
    ("humidity_avg", hum_avg), ("condition", cond),
    ("note", .str "Forecast derived from OpenWeatherMap 5-day/3-hour forecasts. For exact historical data use a paid historical API.")]

/-- Embeds functions.get_weather_for_date (init_db is a no-op here).  The
second component collects the log_call appends: every return branch logs
the normalized city and date together with the result it returns, and a
raising path logs nothing.  (`_geocode_city` is modelled by its returned
value; its KeyError path on a malformed geocoding payload would raise
before any log, like the other raising paths.) -/
def get_weather_for_date (env : WeatherEnv) (city date : Json) :
    PyResult Json × List AuditRecord :=
  match normalize_city_j city with
  | .error e => (.error e, [])
  | .ok c =>
    match normalize_date_j env.today date with
    | .error e => (.error e, [])
    | .ok d =>
      let args : Json := .obj [("city", .str c), ("date", .str d)]
      if env.apiKey = false then
        let r : Json := .obj [("error", .str "Missing OPENWEATHER_API_KEY in environment")]
        (.ok r, [⟨"get_weather_for_date", args, r⟩])
      else
        match parseIsoDate d.toList with
        | none =>
          let r : Json := .obj [("error", .str "Invalid date format. Use YYYY-MM-DD. (exception)")]
          (.ok r, [⟨"get_weather_for_date", args, r⟩])
        | some target =>
          match env.geo with
          | none =>
            let r : Json := .obj [("error",
              .str ("Could not geocode city '" ++ c ++ "' (check spelling) or missing API key."))]
            (.ok r, [⟨"get_weather_for_date", args, r⟩])
          | some geo =>
            if target = env.today then
              if env.current.status ≠ 200 then
                let r : Json := .obj [("error", env.current.body)]
                (.ok r, [⟨"get_weather_for_date", args, r⟩])
              else
                match buildCurrentResult d geo env.current.body with
                | .error e => (.error e, [])
                | .ok r => (.ok r, [⟨"get_weather_for_date", args, r⟩])
            else
              if env.forecast.status ≠ 200 then
                let r : Json := .obj [("error", env.forecast.body)]
                (.ok r, [⟨"get_weather_for_date", args, r⟩])
              else
                match forecastGroups env.forecast.body with
                | .error e => (.error e, [])
                | .ok grouped =>
                  match grouped.lookup ⟨isoformat target⟩ with
                  | none =>
                    let r : Json := .obj [("error",
                      .str "Requested date is outside the available forecast window (OpenWeatherMap 5-day forecast).")]
                    (.ok r, [⟨"get_weather_for_date", args, r⟩])
                  | some day_entries =>
                    match buildForecastResult d geo day_entries with
                    | .error e => (.error e, [])
                    | .ok r => (.ok r, [⟨"get_weather_for_date", args, r⟩])

/-- The three tool callables of the registry. -/
inductive ToolId where
  | weather
  | news
  | convert
deriving DecidableEq

/-- One FUNCTION_REGISTRY entry: the callable together with the keys of
`parameters.properties` of its schema, in source order. -/
structure RegEntry where
  tool : ToolId
  paramKeys : List String

/-- FUNCTION_REGISTRY from functions.py, in source order. -/
def FUNCTION_REGISTRY : List (String × RegEntry) :=
  [("get_weather_for_date", ⟨.weather, ["city", "date"]⟩),
   ("get_news_for_city", ⟨.news, ["city", "page_size"]⟩),
   ("convert_currency", ⟨.convert, ["amount", "base", "target"]⟩)]

/-- The sanitization loop of call_function_by_name: keep, in schema
order, exactly the declared keys that are present in the caller mapping. -/
def sanitize_args (paramKeys : List String) (arguments : List (String × Json)) :
    List (String × Json) :=
  paramKeys.filterMap (fun k => (arguments.lookup k).map (fun v => (k, v)))

/-- The shared environment: everything the three tools observe from the
outside world during one dispatcher invocation. -/
structure Env where
  weather : WeatherEnv
  news : NewsEnv
  convert : ConvertEnv

/-- The call `fn(**cleaned_args)`: keyword binding against each tool's
Python signature.  A missing required parameter raises TypeError (which
call_function_by_name re-raises); `page_size` defaults to 5; extra keys
cannot occur after sanitization. -/
def execTool (env : Env) : ToolId → List (String × Json) → PyResult Json × List AuditRecord
  | .weather, args =>
    match args.lookup "city", args.lookup "date" with
    | some c, some d => get_weather_for_date env.weather c d
    | _, _ => (.error .typeError, [])
  | .news, args =>
    match args.lookup "city" with
    | some c => get_news_for_city env.news c ((args.lookup "page_size").getD (.num 5))
    | none => (.error .typeError, [])
  | .convert, args =>
    match args.lookup "amount", args.lookup "base", args.lookup "target" with
    | some a, some b, some t => convert_currency env.convert a b t
    | _, _, _ => (.error .typeError, [])

/-- Embeds functions.call_function_by_name: unknown names raise
`ValueError("Unknown function: ...")` before any other step; then the
declared-keys sanitization; then the call.  A non-string name is never a
registry key: hashable non-strings reach the same ValueError (with the
value interpolated into the message), unhashable ones (lists/dicts)
raise TypeError at the membership test.  Passing a non-mapping as
`arguments` always ends in a TypeError in the source (at the `in` test,
at indexing, or at the call with required parameters missing), collapsed
here into one TypeError. -/
def call_function_by_name (env : Env) (name : Json) (arguments : Json) :
    PyResult Json × List AuditRecord :=
  match name with
  | .str s =>
    match FUNCTION_REGISTRY.lookup s with
    | none => (.error (.valueError ("Unknown function: " ++ s)), [])
    | some entry =>
      match arguments with
      | .obj kvs => execTool env entry.tool (sanitize_args entry.paramKeys kvs)
      | _ => (.error .typeError, [])
  | .arr _ => (.error .typeError, [])
  | .obj _ => (.error .typeError, [])
  | _ => (.error (.valueError "Unknown function: (non-string value)"), [])

/-- Content of a conversation message: text, Python None, or (for the
function-role message) the serialized tool result, represented by the
Json value handed to json.dumps. -/
inductive MsgContent where
  | text (s : String)
  | null
  | jsonOf (j : Json)

/-- One role-tagged conversation message of main.chat_endpoint. -/
structure Message where
  role : String
  content : MsgContent
  function_call : Option FunctionCall
  name : Option Json

/-- The initial system prompt of main.chat_endpoint. -/
def mainSystemPrompt : String :=
  "You are an assistant that can call tools to fetch data. Available tools: get_weather_for_date(city, date), get_news_for_city(city, page_size), convert_currency(amount, base, target). If the user asks for weather, news or currency conversion, call the correct tool."

/-- The system instruction appended after a successful tool call,
verbatim from main.chat_endpoint.  It is a single fixed string: the
controller appends it whatever tool was invoked. -/
def secondPassInstr : String :=
  "Now write a final user-friendly answer. Do NOT call any tool. Do NOT return JSON. Summarize the news in bullet points with title + source."

/-- The two initial messages of a turn. -/
def initMessages (userMsg : String) : List Message :=
  [⟨"system", .text mainSystemPrompt, none, none⟩,
   ⟨"user", .text userMsg, none, none⟩]

/-- What one turn observes of the model backend: the first reply's text
(used verbatim on the direct path), the `json.loads` outcome on that
text, and the second reply's text. -/
structure ModelEnv where
  firstText : String
  firstParsed : Option Json
  secondText : String

/-- The serialized TurnOutcome of main.chat_endpoint. -/
inductive Outcome where
  | direct (response : String)
  | function_call (function : Json) (function_args : Json) (function_result : Json)
      (response : String)

/-- How a turn can fail: an HTTPException raised by the endpoint, or an
exception that escapes it uncaught. -/
inductive Failure where
  | httpException (status : Nat) (detail : String)
  | uncaught (e : PyErr)

/-- `str(e)` as interpolated into the HTTPException detail. -/
def pyErrStr : PyErr → String
  | .valueError msg => msg
  | .typeError => "TypeError"
  | .attributeError => "AttributeError"
  | .keyError => "KeyError"
  | .indexError => "IndexError"
  | .zeroDivisionError => "division by zero"

/-- Embeds main.chat_endpoint for one turn: extract a tool call from the
first reply; on none, answer directly; on a call, dispatch inside the
try/except that converts any exception into HTTPException(500, str(e));
on success, append the assistant tool-call message, the function-role
result message and the fixed second-pass system instruction, then return
the function_call outcome built from the second reply.  Also returns the
final conversation and the audit appends of the turn. -/
def chat_endpoint (menv : ModelEnv) (env : Env) (userMsg : String) :
    Except Failure (Outcome × List Message) × List AuditRecord :=
  match extract_function_call menv.firstParsed with
  | .error e => (.error (.uncaught e), [])
  | .ok none => (.ok (.direct menv.firstText, initMessages userMsg), [])
  | .ok (some fc) =>
    match call_function_by_name env fc.name fc.arguments with
    | (.error e, log) => (.error (.httpException 500 (pyErrStr e)), log)
    | (.ok result, log) =>
      let msgs := initMessages userMsg ++
        [⟨"assistant", .null, some fc, none⟩,
         ⟨"function", .jsonOf result, none, some fc.name⟩,
         ⟨"system", .text secondPassInstr, none, none⟩]
      (.ok (.function_call fc.name fc.arguments result menv.secondText, msgs), log)

/-- `Except.isOk` specialised to `PyResult`. -/
def pyOk {α : Type} : PyResult α → Bool
  | .ok _ => true
  | .error _ => false

/-- Field lookup on a JSON object result (`none` on non-objects). -/
def jfield (r : Json) (k : String) : Option Json :=
  match r with
  | .obj fields => fields.lookup k
  | _ => none

/-- Length of an optional JSON array (0 when absent or not an array). -/
def jarrLen : Option Json → Nat
  | some (.arr es) => es.length
  | _ => 0

/-- The arguments dict that get_weather_for_date hands to log_call:
the city and date after normalization. -/
def weatherLogArgs (today : PyDate) (city date : Json) : Json :=
  match normalize_city_j city, normalize_date_j today date with
  | .ok c, .ok d => .obj [("city", .str c), ("date", .str d)]
  | _, _ => .null

/-- The arguments dict that get_news_for_city hands to log_call:
the normalized city and the received page_size. -/
def newsLogArgs (city page_size : Json) : Json :=
  match normalize_city_j city with
  | .ok c => .obj [("city", .str c), ("page_size", page_size)]
  | _ => .null

/-- The upper-cased normalization of a currency argument, as it appears
in a successful convert_currency result. -/
def okUpper (v : Json) : Option Json :=
  match normalize_currency_j v with
  | .ok b => some (.str (upperStr b))
  | .error _ => none

/-- A benign upstream response for sample environments. -/
def sampleHttp : HttpResp := ⟨200, .obj []⟩

/-- A weather environment with no API key (the shortest logging path). -/
def wEnvA : WeatherEnv := ⟨false, none, sampleHttp, sampleHttp, ⟨2026, 10, 12⟩⟩

/-- A news environment with no API key. -/
def nEnvA : NewsEnv := ⟨false, sampleHttp⟩

/-- A convert environment whose rates answer INR→USD at 83/2. -/
def convEnvA : ConvertEnv := ⟨false, ⟨200, .obj [("rates", .obj [("USD", .num (83 / 2))])]⟩⟩

/-- The environment combining the three sample tool environments. -/
def envA : Env := ⟨wEnvA, nEnvA, convEnvA⟩

/-- The error dict get_news_for_city returns without an API key. -/
def newsErrA : Json := .obj [("error", .str "Missing NEWSAPI_KEY in environment")]

/-- The error dict get_weather_for_date returns without an API key. -/
def weatherErrA : Json := .obj [("error", .str "Missing OPENWEATHER_API_KEY in environment")]

/-- The raw arguments of the sample convert_currency call. -/
def convArgsA : Json :=
  .obj [("amount", .num 500), ("base", .str "INR"), ("target", .str "USD")]

/-- The result of the sample convert_currency call against `convEnvA`. -/
def convResultA : Json :=
  .obj [("amount", .num 500), ("base", .str "INR"), ("target", .str "USD"),
    ("converted", .num (83 / 2)), ("rate", .num (83 / 1000))]

/-- A first model reply declaring a convert_currency call. -/
def menvConvertTurn : ModelEnv :=
  ⟨"x", some (.obj [("tool", .str "convert_currency"), ("arguments", convArgsA)]), "done"⟩

/-- A first model reply asking for weather on the unparseable date
"notadate". -/
def menvBadDateTurn : ModelEnv :=
  ⟨"x", some (.obj [("tool", .str "get_weather_for_date"),
    ("arguments", .obj [("city", .str "Pune"), ("date", .str "notadate")])]), "y"⟩

/-- A first model reply declaring a get_news_for_city call. -/
def menvNewsTurn : ModelEnv :=
  ⟨"a", some (.obj [("tool", .str "get_news_for_city"),
    ("arguments", .obj [("city", .str "Pune")])]), "b"⟩

/-- A news environment answering one article. -/
def nEnvOk : NewsEnv :=
  ⟨true, ⟨200, .obj [("articles", .arr [.obj [("title", .str "T"),
    ("source", .obj [("name", .str "S")]), ("publishedAt", .str "P"),
    ("url", .str "U"), ("description", .str "D")]])]⟩⟩

/-- The successful result of the sample get_news_for_city call. -/
def newsROk : Json :=
  match (get_news_for_city nEnvOk (.str "Pune") (.num ((5 : Int) : ℚ))).1 with
  | .ok r => r
  | .error _ => .null

/-- The successful result of the sample convert_currency call with a
nonzero amount. -/
def convROk : Json :=
  match (convert_currency convEnvA (.num 500) (.str "inr") (.str "usd")).1 with
  | .ok r => r
  | .error _ => .null

/-- The successful result of the sample convert_currency call with a
zero amount. -/
def convR0 : Json :=
  match (convert_currency convEnvA (.num 0) (.str "inr") (.str "usd")).1 with
  | .ok r => r
  | .error _ => .null

example : normalize_date ⟨2026, 10, 12⟩ "today".toList = .ok "2026-10-12".toList := rfl
example : normalize_date ⟨2026, 10, 12⟩ "2026-02-19".toList = .ok "2026-02-19".toList := rfl
example : normalize_date ⟨2026, 10, 12⟩ "19-02-2026".toList = .ok "2026-02-19".toList := rfl
example : normalize_date ⟨2026, 10, 12⟩ "19/02/2026".toList = .ok "2026-02-19".toList := rfl
example : normalize_date ⟨2026, 10, 12⟩ "19 Feb 2026".toList = .ok "2026-02-19".toList := rfl
example : normalize_date ⟨2026, 10, 12⟩ "Feb 19 2026".toList = .ok "2026-02-19".toList := rfl
example : normalize_date ⟨2026, 10, 12⟩ "".toList =
    .error (.valueError "Date cannot be empty.") := rfl
example : normalize_date ⟨2026, 10, 12⟩ "notadate".toList =
    .error (.valueError "Invalid date format. Use YYYY-MM-DD or today/tomorrow.") := rfl
example : normalize_city "  Pune city ".toList = .ok "Pune".toList := rfl
example : normalize_city " City ".toList = .ok "".toList := rfl
example : normalize_currency "inr".toList = .ok "INR".toList := rfl

/-- C6: `normalize_date` maps "today" to the current local date, each of
"2026-02-19", "19-02-2026", "19/02/2026", "19 Feb 2026" and "Feb 19 2026"
to "2026-02-19", and fails with the empty-input / invalid-format
ValueError on "" and on "notadate". -/
theorem C6_normalize_date_examples (today : PyDate) :
    normalize_date today "today".toList = .ok (isoformat today) ∧
    normalize_date today "2026-02-19".toList = .ok "2026-02-19".toList ∧
    normalize_date today "19-02-2026".toList = .ok "2026-02-19".toList ∧
    normalize_date today "19/02/2026".toList = .ok "2026-02-19".toList ∧
    normalize_date today "19 Feb 2026".toList = .ok "2026-02-19".toList ∧
    normalize_date today "Feb 19 2026".toList = .ok "2026-02-19".toList ∧
    normalize_date today "".toList = .error (.valueError "Date cannot be empty.") ∧
    normalize_date today "notadate".toList =
      .error (.valueError "Invalid date format. Use YYYY-MM-DD or today/tomorrow.") :=
  ⟨rfl, rfl, rfl, rfl, rfl, rfl, rfl, rfl⟩

/-- C9: `normalize_city` fails only on the empty string: every nonempty
input succeeds, and any casing of the single word "city", possibly
surrounded by whitespace, normalizes to the empty string rather than
failing. -/
theorem C9_normalize_city_total (s : List Char) (hne : s ≠ []) :
    pyOk (normalize_city s) = true ∧
    (pyLower (pyStrip s) = ['c', 'i', 't', 'y'] → normalize_city s = .ok []) ∧
    normalize_city [] = .error (.valueError "City cannot be empty.") := by
  refine ⟨?_, ?_, rfl⟩
  · simp [normalize_city, hne, pyOk]
  · intro h
    rcases hps : pyStrip s with _ | ⟨a, _ | ⟨b, _ | ⟨c, _ | ⟨d, _ | ⟨e, rest⟩⟩⟩⟩⟩ <;>
      rw [hps] at h <;> simp [pyLower] at h
    obtain ⟨ha, hb, hc, hd⟩ := h
    have hsub : subCityAux none (pyStrip s) = [] := by
      rw [hps]
      simp [subCityAux, ha, hb, hc, hd, noWordBefore, noWordAt]
    unfold normalize_city
    rw [if_neg hne, hsub]
    rfl

/-- Witness for C9 at the concrete input " City ". -/
theorem C9_witness :
    pyOk (normalize_city " City ".toList) = true ∧
    normalize_city " City ".toList = .ok [] := by
  have h := C9_normalize_city_total " City ".toList (by decide)
  exact ⟨h.1, h.2.1 (by decide)⟩

/-- C3 (amended): `extract_function_call` returns none when the text is
not valid JSON, or parses to an object without a truthy "tool" member;
it returns the tool call when the member is truthy; but on a text that
parses to a non-object JSON value it raises AttributeError instead of
returning none. -/
theorem C3_extract_behavior :
    extract_function_call none = .ok none ∧
    (∀ fields : List (String × Json), truthy (dictGet fields "tool") = false →
      extract_function_call (some (.obj fields)) = .ok none) ∧
    (∀ fields : List (String × Json), truthy (dictGet fields "tool") = true →
      extract_function_call (some (.obj fields)) =
        .ok (some ⟨dictGet fields "tool", (fields.lookup "arguments").getD (.obj [])⟩)) ∧
    (∀ q : ℚ, extract_function_call (some (.num q)) = .error .attributeError) ∧
    (∀ t : String, extract_function_call (some (.str t)) = .error .attributeError) ∧
    (∀ es : List Json, extract_function_call (some (.arr es)) = .error .attributeError) ∧
    (∀ b : Bool, extract_function_call (some (.bool b)) = .error .attributeError) ∧
    extract_function_call (some .null) = .error .attributeError := by
  refine ⟨rfl, ?_, ?_, fun _ => rfl, fun _ => rfl, fun _ => rfl, fun _ => rfl, rfl⟩
  · intro fields h
    simp [extract_function_call, h]
  · intro fields h
    simp [extract_function_call, h]

/-- Witness for C3 at two concrete parse outcomes. -/
theorem C3_witness :
    extract_function_call (some (.obj [("tool", .str "get_news_for_city")])) =
      .ok (some ⟨.str "get_news_for_city", .obj []⟩) ∧
    extract_function_call (some (.obj [("tool", .null)])) = .ok none :=
  ⟨C3_extract_behavior.2.2.1 [("tool", .str "get_news_for_city")] rfl,
   C3_extract_behavior.2.1 [("tool", .null)] rfl⟩

/-- C3 counterexample: the text "5" is valid JSON, hence "not parseable
as the expected structured shape" per the claim, yet extract_function_call
raises AttributeError on it instead of returning none. -/
theorem C3_counterexample :
    extract_function_call (some (.num 5)) = .error .attributeError := rfl

/-- C5: through the dispatcher a registered tool's executable receives
exactly the sanitized arguments — the declared schema keys the caller
supplied, every extra key silently dropped — so the delivered keys are a
subset of the schema keys; concretely, {city, date, extra} against the
two-parameter weather schema delivers only city and date. -/
theorem C5_sanitization
    (s : String) (entry : RegEntry) (kvs : List (String × Json)) (env : Env)
    (hreg : FUNCTION_REGISTRY.lookup s = some entry) :
    call_function_by_name env (.str s) (.obj kvs) =
      execTool env entry.tool (sanitize_args entry.paramKeys kvs) ∧
    (∀ k, k ∈ (sanitize_args entry.paramKeys kvs).map Prod.fst → k ∈ entry.paramKeys) ∧
    sanitize_args ["city", "date"]
        [("city", .str "Pune"), ("date", .str "today"), ("extra", .num 1)] =
      [("city", .str "Pune"), ("date", .str "today")] := by
  refine ⟨?_, ?_, rfl⟩
  · simp [call_function_by_name, hreg]
  · intro k hk
    simp only [sanitize_args, List.map_filterMap, List.mem_filterMap] at hk
    obtain ⟨a, ha, hfa⟩ := hk
    rcases h : kvs.lookup a with _ | v <;> rw [h] at hfa <;> simp at hfa
    rw [← hfa]
    exact ha

/-- Witness for C5 at the weather registry entry. -/
theorem C5_witness :
    call_function_by_name envA (.str "get_weather_for_date")
        (.obj [("city", .str "Pune"), ("date", .str "today"), ("extra", .num 1)]) =
      execTool envA ToolId.weather
        (sanitize_args ["city", "date"]
          [("city", .str "Pune"), ("date", .str "today"), ("extra", .num 1)]) ∧
    sanitize_args ["city", "date"]
        [("city", .str "Pune"), ("date", .str "today"), ("extra", .num 1)] =
      [("city", .str "Pune"), ("date", .str "today")] := by
  have h := C5_sanitization "get_weather_for_date" ⟨.weather, ["city", "date"]⟩
    [("city", .str "Pune"), ("date", .str "today"), ("extra", .num 1)] envA rfl
  exact ⟨h.1, h.2.2⟩

/-- Bind on a successful PyResult. -/
theorem pyBind_ok {α β : Type} (a : α) (f : α → PyResult β) :
    (Except.ok a >>= f : PyResult β) = f a := rfl

/-- Bind on a raised PyResult. -/
theorem pyBind_err {α β : Type} (e : PyErr) (f : α → PyResult β) :
    ((Except.error e : PyResult α) >>= f : PyResult β) = .error e := rfl

/-- `mapMPy` preserves the length of its input. -/
theorem mapMPy_length {α β : Type} (f : α → PyResult β) :
    ∀ (xs : List α) (ys : List β), mapMPy f xs = .ok ys → ys.length = xs.length := by
  intro xs
  induction xs with
  | nil =>
    intro ys h
    simp [mapMPy] at h
    subst h
    rfl
  | cons x xs ih =>
    intro ys h
    simp only [mapMPy] at h
    rcases hf : f x with e | y <;> rw [hf] at h
    · exact absurd h (by simp)
    · rcases hm : mapMPy f xs with e | ys0 <;> rw [hm] at h
      · exact absurd h (by simp)
      · simp at h
        subst h
        simp [ih ys0 hm]

/-- A slice `x[:n]` never yields more than `n` elements. -/
theorem pySlice_length {v : Json} {n : Nat} {l : List Json}
    (h : pySlice v n = .ok l) : l.length ≤ n := by
  cases v <;> simp [pySlice] at h
  case str s =>
    subst h
    simp [List.length_take]
  case arr es =>
    subst h
    simp [List.length_take]

/-- Python `int()` is the identity on integers. -/
theorem pyInt_intCast (m : Int) : pyInt (.num (m : ℚ)) = .ok m := by
  have : ratTrunc (m : ℚ) = m := by
    unfold ratTrunc
    split
    · exact Int.floor_intCast m
    · exact Int.ceil_intCast m
  simp [pyInt, this]

/-- C8: `get_news_for_city` clamps the requested article count to
max(1, min(page_size, 20)) as an integer, and every successful
non-error-shaped result carries a "count" equal to the number of
returned articles, which never exceeds that clamp. -/
theorem C8_news_count
    (env : NewsEnv) (city : Json) (m : Int) (r : Json)
    (hok : (get_news_for_city env city (.num (m : ℚ))).1 = .ok r)
    (herr : jfield r "error" = none) :
    (jfield r "articles").isSome = true ∧
    jfield r "count" = some (.num (jarrLen (jfield r "articles"))) ∧
    jarrLen (jfield r "articles") ≤ (max 1 (min m 20)).toNat := by
  unfold get_news_for_city at hok
  rw [pyInt_intCast] at hok
  rcases hc : normalize_city_j city with e | c <;> rw [hc] at hok
  · exact absurd hok (by simp)
  simp only at hok
  split at hok
  · simp at hok
    subst hok
    simp [jfield] at herr
  · split at hok
    · simp at hok
      subst hok
      simp [jfield] at herr
    · rcases hraw : pyDictGetD env.resp.body "articles" (.arr []) with e | raw <;>
        rw [hraw] at hok
      · rw [pyBind_err] at hok
        exact absurd hok (by simp)
      · rw [pyBind_ok] at hok
        rcases hsl : pySlice raw (max 1 (min m 20)).toNat with e | sliced <;>
          rw [hsl] at hok
        · rw [pyBind_err] at hok
          exact absurd hok (by simp)
        · rw [pyBind_ok] at hok
          rcases hmap : mapMPy buildArticle sliced with e | articles <;>
            rw [hmap] at hok
          · rw [pyBind_err] at hok
            exact absurd hok (by simp)
          · rw [pyBind_ok] at hok
            simp [pure, Except.pure] at hok
            subst hok
            refine ⟨rfl, rfl, ?_⟩
            have h1 : articles.length = sliced.length :=
              mapMPy_length buildArticle sliced articles hmap
            have h2 : sliced.length ≤ (max 1 (min m 20)).toNat := pySlice_length hsl
            have hj : jarrLen (jfield (Json.obj [("city", Json.str c),
                ("count", Json.num articles.length), ("articles", Json.arr articles)])
                "articles") = articles.length := rfl
            rw [hj]
            omega

/-- Witness for C8: one article against a pageSize request of 5. -/
theorem C8_witness :
    (jfield newsROk "articles").isSome = true ∧
    jfield newsROk "count" = some (.num (jarrLen (jfield newsROk "articles"))) ∧
    jarrLen (jfield newsROk "articles") ≤ (max 1 (min (5 : Int) 20)).toNat :=
  C8_news_count nEnvOk (.str "Pune") 5 newsROk rfl rfl

/-- C10: convert_currency never divides by zero: every successful
non-error-shaped result echoes the amount, returns base and target
upper-cased, and carries rate = converted / amount when the amount is
nonzero and rate = None when the amount is 0. -/
theorem C10_convert_rate
    (env : ConvertEnv) (a : ℚ) (base target : Json) (r : Json)
    (hok : (convert_currency env (.num a) base target).1 = .ok r)
    (herr : jfield r "error" = none) :
    jfield r "amount" = some (.num a) ∧
    jfield r "base" = okUpper base ∧
    jfield r "target" = okUpper target ∧
    (a = 0 → jfield r "rate" = some .null) ∧
    (a ≠ 0 → (jfield r "converted").isSome = true ∧
      jfield r "rate" = (jfield r "converted").bind
        (fun cv => (pyNumOf cv).map (fun c => Json.num (c / a)))) := by
  unfold convert_currency at hok
  simp only at hok
  unfold convert_currency_run at hok
  rcases hb : normalize_currency_j base with e | b <;> rw [hb] at hok
  · rw [pyBind_err] at hok
    exact absurd hok (by simp)
  rw [pyBind_ok] at hok
  rcases ht : normalize_currency_j target with e | t <;> rw [ht] at hok
  · rw [pyBind_err] at hok
    exact absurd hok (by simp)
  rw [pyBind_ok] at hok
  split at hok
  · simp [pure, Except.pure] at hok
    subst hok
    simp [jfield] at herr
  split at hok
  · simp [pure, Except.pure] at hok
    subst hok
    simp [jfield] at herr
  rcases hrates : pySubscript env.resp.body "rates" with e | rates <;> rw [hrates] at hok
  · rw [pyBind_err] at hok
    exact absurd hok (by simp)
  rw [pyBind_ok] at hok
  rcases hconv : pySubscript rates (upperStr t) with e | conv <;> rw [hconv] at hok
  · rw [pyBind_err] at hok
    exact absurd hok (by simp)
  rw [pyBind_ok] at hok
  by_cases ha : a = 0
  · subst ha
    have htr : truthy (Json.num 0) = false := by decide
    rw [htr] at hok
    simp only [if_false, Bool.false_eq_true] at hok
    rw [show (pure Json.null : PyResult Json) = .ok Json.null from rfl, pyBind_ok] at hok
    simp [pure, Except.pure] at hok
    subst hok
    refine ⟨rfl, ?_, ?_, fun _ => rfl, fun hne => absurd rfl hne⟩
    · simp [okUpper, hb]
      rfl
    · simp [okUpper, ht]
      rfl
  · have htr : truthy (Json.num a) = true := by simp [truthy, ha]
    rw [htr] at hok
    simp only [if_true] at hok
    rcases hnc : pyNumOf conv with _ | c
    · have hdiv : pyDiv conv (Json.num a) = .error .typeError := by
        unfold pyDiv
        rw [hnc]
      rw [hdiv, pyBind_err] at hok
      exact absurd hok (by simp)
    · have hdiv : pyDiv conv (Json.num a) = .ok (.num (c / a)) := by
        unfold pyDiv
        rw [hnc]
        simp [pyNumOf, ha]
      rw [hdiv, pyBind_ok] at hok
      simp [pure, Except.pure] at hok
      subst hok
      refine ⟨rfl, ?_, ?_, fun h0 => absurd h0 ha, fun _ => ⟨rfl, ?_⟩⟩
      · simp [okUpper, hb]
        rfl
      · simp [okUpper, ht]
        rfl
      · have h1 : jfield (Json.obj [("amount", Json.num a), ("base", .str (upperStr b)),
            ("target", .str (upperStr t)), ("converted", conv), ("rate", .num (c / a))])
            "converted" = some conv := rfl
        have h2 : jfield (Json.obj [("amount", Json.num a), ("base", .str (upperStr b)),
            ("target", .str (upperStr t)), ("converted", conv), ("rate", .num (c / a))])
            "rate" = some (.num (c / a)) := rfl
        rw [h1, h2]
        simp [hnc]

/-- Witness for C10 at a nonzero and a zero amount. -/
theorem C10_witness :
    jfield convROk "base" = okUpper (.str "inr") ∧
    jfield convROk "rate" = (jfield convROk "converted").bind
      (fun cv => (pyNumOf cv).map (fun c => Json.num (c / (500 : ℚ)))) ∧
    jfield convR0 "rate" = some .null := by
  have h1 := C10_convert_rate convEnvA 500 (.str "inr") (.str "usd") convROk rfl rfl
  have h2 := C10_convert_rate convEnvA 0 (.str "inr") (.str "usd") convR0 rfl rfl
  exact ⟨h1.2.1, (h1.2.2.2.2 (by norm_num)).2, h2.2.2.2.1 rfl⟩

/-- C1 (amended): for the weather and news tools, every successful return
(error-shaped results included) appends exactly one audit record carrying
the tool name, the logged arguments (city and date normalized, page_size
as received) and the returned result, while convert_currency appends no
record at all; the dispatcher hands a registered tool the sanitized
arguments and returns its outcome unchanged. -/
theorem C1_audit_behavior :
    (∀ env c d r log, get_weather_for_date env c d = (.ok r, log) →
      log = [⟨"get_weather_for_date", weatherLogArgs env.today c d, r⟩]) ∧
    (∀ env c p r log, get_news_for_city env c p = (.ok r, log) →
      log = [⟨"get_news_for_city", newsLogArgs c p, r⟩]) ∧
    (∀ env a b t, (convert_currency env a b t).2 = []) ∧
    (∀ env s entry kvs, FUNCTION_REGISTRY.lookup s = some entry →
      call_function_by_name env (.str s) (.obj kvs) =
        execTool env entry.tool (sanitize_args entry.paramKeys kvs)) := by
  refine ⟨?_, ?_, fun _ _ _ _ => rfl, ?_⟩
  · intro env c d r log hok
    unfold get_weather_for_date at hok
    rcases hc : normalize_city_j c with e | cv <;> rw [hc] at hok
    · exact absurd hok (by simp)
    rcases hd : normalize_date_j env.today d with e | dv <;> rw [hd] at hok
    · exact absurd hok (by simp)
    have hargs : weatherLogArgs env.today c d =
        .obj [("city", .str cv), ("date", .str dv)] := by
      unfold weatherLogArgs
      rw [hc, hd]
    rw [hargs]
    simp only at hok
    repeat' split at hok
    all_goals injection hok with h1 h2
    all_goals
      first
      | (injection h1 with h1e
         subst h1e
         subst h2
         rfl)
      | injection h1
  · intro env c p r log hok
    unfold get_news_for_city at hok
    rcases hc : normalize_city_j c with e | cv <;> rw [hc] at hok
    · exact absurd hok (by simp)
    have hargs : newsLogArgs c p = .obj [("city", .str cv), ("page_size", p)] := by
      unfold newsLogArgs
      rw [hc]
    rw [hargs]
    simp only at hok
    repeat' split at hok
    all_goals injection hok with h1 h2
    all_goals
      first
      | (injection h1 with h1e
         subst h1e
         subst h2
         rfl)
      | injection h1
  · intro env s entry kvs h
    simp [call_function_by_name, h]

/-- C1 counterexample: a successful convert_currency dispatch appends
zero audit records rather than exactly one; and a news dispatch logs the
normalized city together with the defaulted page_size, not the original
rawArguments supplied by the model. -/
theorem C1_counterexample :
    call_function_by_name envA (.str "convert_currency") convArgsA = (.ok convROk, []) ∧
    call_function_by_name envA (.str "get_news_for_city")
        (.obj [("city", .str " pune city ")]) =
      (.ok newsErrA,
        [⟨"get_news_for_city", .obj [("city", .str "Pune"), ("page_size", .num 5)],
          newsErrA⟩]) :=
  ⟨rfl, rfl⟩

/-- Witness for C1 at concrete calls of the three tools. -/
theorem C1_witness :
    (get_weather_for_date wEnvA (.str "Pune") (.str "today")).2 =
      [⟨"get_weather_for_date",
        weatherLogArgs ⟨2026, 10, 12⟩ (.str "Pune") (.str "today"), weatherErrA⟩] ∧
    (get_news_for_city nEnvA (.str "Pune") (.num 5)).2 =
      [⟨"get_news_for_city", newsLogArgs (.str "Pune") (.num 5), newsErrA⟩] ∧
    (convert_currency convEnvA (.num 1) (.str "usd") (.str "inr")).2 = [] := by
  refine ⟨?_, ?_, C1_audit_behavior.2.2.1 convEnvA (.num 1) (.str "usd") (.str "inr")⟩
  · exact C1_audit_behavior.1 wEnvA (.str "Pune") (.str "today") weatherErrA
      [⟨"get_weather_for_date",
        .obj [("city", .str "Pune"), ("date", .str "2026-10-12")], weatherErrA⟩] rfl
  · exact C1_audit_behavior.2.1 nEnvA (.str "Pune") (.num 5) newsErrA
      [⟨"get_news_for_city",
        .obj [("city", .str "Pune"), ("page_size", .num 5)], newsErrA⟩] rfl

/-- C2 counterexample: the model asks for weather on "notadate"; the date
normalizer's ValueError escapes the tool and the turn aborts with
HTTP 500 — no {"error": ...} tool result, no audit append, and no second
model pass. -/
theorem C2_counterexample :
    chat_endpoint menvBadDateTurn envA "weather in Pune on notadate" =
      (.error (.httpException 500
        "Invalid date format. Use YYYY-MM-DD or today/tomorrow."), []) := rfl

/-- C2 (amended): a normalizer rejection (like any exception escaping the
dispatched call) aborts the turn: the controller returns
HTTPException(500, str(e)), the second model pass never runs (the same
failure results for every possible second reply), and the audit appends
are exactly those of the failed dispatch. -/
theorem C2_error_aborts_turn
    (ft : String) (fp : Option Json) (env : Env) (u : String)
    (fc : FunctionCall) (e : PyErr) (log : List AuditRecord)
    (hfc : extract_function_call fp = .ok (some fc))
    (hdisp : call_function_by_name env fc.name fc.arguments = (.error e, log)) :
    ∀ t : String, chat_endpoint ⟨ft, fp, t⟩ env u =
      (.error (.httpException 500 (pyErrStr e)), log) := by
  intro t
  unfold chat_endpoint
  simp only [hfc, hdisp]

/-- Witness for C2: a turn whose news call carries an empty city. -/
theorem C2_witness :
    chat_endpoint
      ⟨"a", some (.obj [("tool", .str "get_news_for_city"),
        ("arguments", .obj [("city", .str "")])]), "z"⟩ envA "news please" =
      (.error (.httpException 500 "City cannot be empty."), []) :=
  C2_error_aborts_turn "a"
    (some (.obj [("tool", .str "get_news_for_city"),
      ("arguments", .obj [("city", .str "")])])) envA "news please"
    ⟨.str "get_news_for_city", .obj [("city", .str "")]⟩
    (.valueError "City cannot be empty.") [] rfl rfl "z"

/-- C4: a tool call naming a function absent from the registry fails the
dispatch with the UnknownTool ValueError before any audit append, and
the controller reports the turn failed with HTTP 500 — no second model
pass (the same failure results for every second reply) and no silent
direct-answer fallback. -/
theorem C4_unknown_tool
    (env : Env) (ft u : String) (s : String) (args : Json)
    (hs : s ≠ "") (hreg : FUNCTION_REGISTRY.lookup s = none) :
    call_function_by_name env (.str s) args =
      (.error (.valueError ("Unknown function: " ++ s)), []) ∧
    ∀ t : String,
      chat_endpoint ⟨ft, some (.obj [("tool", .str s), ("arguments", args)]), t⟩ env u =
        (.error (.httpException 500 ("Unknown function: " ++ s)), []) := by
  have hlen : s.length ≠ 0 := by
    intro h0
    apply hs
    cases s with
    | mk data =>
      cases data
      · rfl
      · simp [String.length] at h0
  have htr : truthy (Json.str s) = true := by
    simp [truthy]
    omega
  have hdisp : call_function_by_name env (.str s) args =
      (.error (.valueError ("Unknown function: " ++ s)), []) := by
    simp only [call_function_by_name, hreg]
  have hex : extract_function_call (some (.obj [("tool", .str s), ("arguments", args)])) =
      .ok (some ⟨.str s, args⟩) := by
    simp only [extract_function_call]
    simp [dictGet, htr]
    rfl
  refine ⟨hdisp, fun t => ?_⟩
  unfold chat_endpoint
  simp only [hex, hdisp]
  rfl

/-- Witness for C4 at the unregistered name "frobnicate". -/
theorem C4_witness :
    call_function_by_name envA (.str "frobnicate") (.obj []) =
      (.error (.valueError ("Unknown function: " ++ "frobnicate")), []) ∧
    chat_endpoint ⟨"a", some (.obj [("tool", .str "frobnicate"),
        ("arguments", .obj [])]), "t"⟩ envA "hi" =
      (.error (.httpException 500 ("Unknown function: " ++ "frobnicate")), []) := by
  have h := C4_unknown_tool envA "a" "hi" "frobnicate" (.obj []) (by decide) rfl
  exact ⟨h.1, h.2 "t"⟩

/-- C7 counterexample: a successful convert_currency turn — not a news
turn — still appends the verbatim bullet-point news instruction as its
second-pass system message, not a free-prose one. -/
theorem C7_counterexample :
    chat_endpoint menvConvertTurn envA "Convert 500 INR to USD" =
      (.ok (.function_call (.str "convert_currency") convArgsA convROk "done",
        initMessages "Convert 500 INR to USD" ++
          [⟨"assistant", .null, some ⟨.str "convert_currency", convArgsA⟩, none⟩,
           ⟨"function", .jsonOf convROk, none, some (.str "convert_currency")⟩,
           ⟨"system", .text "Now write a final user-friendly answer. Do NOT call any tool. Do NOT return JSON. Summarize the news in bullet points with title + source.",
             none, none⟩]), []) := rfl

/-- C7 (amended): after any successful tool execution the controller
appends the assistant tool-call message, the function-role result
message, and one fixed system instruction — forbidding further tool
calls and JSON and requesting the news-style bullet summary — identical
for every tool. -/
theorem C7_second_pass_instruction
    (ft : String) (fp : Option Json) (t : String) (env : Env) (u : String)
    (fc : FunctionCall) (r : Json) (log : List AuditRecord)
    (hfc : extract_function_call fp = .ok (some fc))
    (hdisp : call_function_by_name env fc.name fc.arguments = (.ok r, log)) :
    chat_endpoint ⟨ft, fp, t⟩ env u =
      (.ok (.function_call fc.name fc.arguments r t,
        initMessages u ++
          [⟨"assistant", .null, some fc, none⟩,
           ⟨"function", .jsonOf r, none, some fc.name⟩,
           ⟨"system", .text secondPassInstr, none, none⟩]), log) := by
  unfold chat_endpoint
  simp only [hfc, hdisp]

/-- Witness for C7 at a concrete news turn. -/
theorem C7_witness :
    chat_endpoint menvNewsTurn envA "news in Pune" =
      (.ok (.function_call (.str "get_news_for_city") (.obj [("city", .str "Pune")])
          newsErrA "b",
        initMessages "news in Pune" ++
          [⟨"assistant", .null,
            some ⟨.str "get_news_for_city", .obj [("city", .str "Pune")]⟩, none⟩,
           ⟨"function", .jsonOf newsErrA, none, some (.str "get_news_for_city")⟩,
           ⟨"system", .text secondPassInstr, none, none⟩]),
        [⟨"get_news_for_city", .obj [("city", .str "Pune"), ("page_size", .num 5)],
          newsErrA⟩]) :=
  C7_second_pass_instruction "a"
    (some (.obj [("tool", .str "get_news_for_city"),
      ("arguments", .obj [("city", .str "Pune")])])) "b" envA "news in Pune"
    ⟨.str "get_news_for_city", .obj [("city", .str "Pune")]⟩ newsErrA
    [⟨"get_news_for_city", .obj [("city", .str "Pune"), ("page_size", .num 5)], newsErrA⟩]
    rfl rfl
